import Mathlib

/-!
# Verification of the `ether_tester` test-vector protocol

A shallow embedding, in Lean 4, of the Rust sources of the `ether_tester`
utility (files `src/ether_tester/src/test_case.rs`, `src/ether_tester/src/main.rs`
and `src/ether_tester/src/params.rs`), together with theorems settling the
specification claims about the expected-sequence generator, the packet
encoders, the verification step of `udp_test`, the repetition loop of `main`,
and the `parse_ip_port_mac` configuration parser.

Machine integers (`u8`, `u16`, `u32`, `u64`) are embedded as `Nat`; wrapping
arithmetic is written with an explicit `% 2^w`, and bit operations (`|`, `&`,
`<<`, `>>`) use the corresponding `Nat` bitwise operations.  Host byte order
is made explicit: `u64::to_be` is the identity on a big-endian host and a
byte swap on a little-endian host, so the endianness-sensitive functions take
a boolean `le` flag (true on a little-endian host).
-/

set_option autoImplicit false

namespace EtherTester

/-! ## Data model (`params.rs`, `test_case.rs`, `main.rs`) -/

/-- `Params` from `params.rs`: the validated program parameters. `u32`,
`u16`, `u64` and `usize` fields are embedded as `Nat`, `BaudRate` by its
integer speed. -/
structure Params where
  bytes : Nat
  dest_ip : Nat
  dest_port : Nat
  dest_mac : Nat
  no_socket : Bool
  reps : Nat
  serial_port : String
  serial_baud : Nat
  show_all : Bool
  src_ip : Nat
  src_port : Nat
  src_mac : Nat

/-- `TestCase` from `test_case.rs`: test parameters plus the random data
seed and generator bytes. -/
structure TestCase where
  params : Params
  seed : Nat
  gen : Nat

/-- `TestParams` from `main.rs`: the parameters describing the UDP packets,
with the freshly drawn `seed` and `gen` bytes. Note that `src_ip` and
`dest_ip` are stored as `u64` in this revision of the code. -/
structure TestParams where
  src_ip : Nat
  src_mac : Nat
  src_port : Nat
  dest_ip : Nat
  dest_mac : Nat
  dest_port : Nat
  seed : Nat
  gen : Nat

/-- `DATA_BYTES` from `main.rs`: the number of data bytes in a test packet. -/
def DATA_BYTES : Nat := 256

/-! ## The expected-sequence generator

Both `TestCase::expected` (test_case.rs) and `TestParams::expected`
(main.rs) run the same loop body

    for i in 1..n { let next = v[i - 1] + self.gen; v.push(next); }

where the addition is on `u8`, embedded as addition modulo `2^8 = 256`. -/

/-- One iteration of the generator loop: push `v[i-1] + gen` (as a `u8`,
hence `% 256`) onto the vector `v`. -/
def expectedStep (gen : Nat) (v : List Nat) (i : Nat) : List Nat :=
  v ++ [(v.getD (i - 1) 0 + gen) % 256]

/-- `TestCase::expected` from `test_case.rs`:

    let mut v = vec![];
    if self.params.bytes > 0 {
        v.push(self.seed);
        for i in 1..self.params.bytes { let next = v[i-1] + self.gen; v.push(next); }
    }
-/
def TestCase.expected (seed gen bytes : Nat) : List Nat :=
  if bytes > 0 then (List.range' 1 (bytes - 1)).foldl (expectedStep gen) [seed]
  else []

/-- `TestParams::expected` from `main.rs` (note: no guard on `size`, the
seed is always pushed first):

    let mut v = vec![];
    v.push(self.seed);
    for i in 1..size { let next = v[i-1] + self.gen; v.push(next); }
-/
def TestParams.expected (seed gen size : Nat) : List Nat :=
  (List.range' 1 (size - 1)).foldl (expectedStep gen) [seed]

/-- The unfolded form of the generator: `expectedFrom x gen n` is the list
of `n` bytes starting at `x`, each subsequent one obtained by adding `gen`
modulo 256.  Used as a proof-friendly description of the loop above. -/
def expectedFrom (x gen : Nat) : Nat → List Nat
  | 0 => []
  | n + 1 => x :: expectedFrom ((x + gen) % 256) gen n

/-! ## The packet encoders -/

/-- `u64::swap_bytes`, on a value `v < 2^64`: reverse the eight bytes. -/
def swapBytes64 (v : Nat) : Nat :=
  (((v >>> 0) &&& 0xFF) <<< 56) ||| (((v >>> 8) &&& 0xFF) <<< 48) |||
  (((v >>> 16) &&& 0xFF) <<< 40) ||| (((v >>> 24) &&& 0xFF) <<< 32) |||
  (((v >>> 32) &&& 0xFF) <<< 24) ||| (((v >>> 40) &&& 0xFF) <<< 16) |||
  (((v >>> 48) &&& 0xFF) <<< 8) ||| ((v >>> 56) &&& 0xFF)

/-- `u64::to_be`: on a big-endian host this is a no-op; on a little-endian
host (`le = true`) the bytes are swapped. -/
def to_be (le : Bool) (data : Nat) : Nat :=
  if le then swapBytes64 data else data

/-- `append_bytes` from `test_case.rs` (the copy in `main.rs` is textually
identical):

    let v = data.to_be();
    for i in (0..bytes).rev() { vec.push(((v >> (8 * i)) & 0xFF) as u8); }
-/
def append_bytes (le : Bool) (vec : List Nat) (data : Nat) (bytes : Nat) : List Nat :=
  let v := to_be le data
  vec ++ ((List.range bytes).reverse.map fun i => (v >>> (8 * i)) &&& 0xFF)

/-- `TestCase::to_bytes` from `test_case.rs`: widths 4, 2, 6, 4, 2, 6, 1, 1;
the source ends with `assert!(bytes.len() == 26)`. -/
def TestCase.to_bytes (le : Bool) (tc : TestCase) : List Nat :=
  let bytes := []
  let bytes := append_bytes le bytes tc.params.src_ip 4
  let bytes := append_bytes le bytes tc.params.src_port 2
  let bytes := append_bytes le bytes tc.params.src_mac 6
  let bytes := append_bytes le bytes tc.params.dest_ip 4
  let bytes := append_bytes le bytes tc.params.dest_port 2
  let bytes := append_bytes le bytes tc.params.dest_mac 6
  let bytes := append_bytes le bytes tc.seed 1
  append_bytes le bytes tc.gen 1

/-- `TestParams::to_bytes` from `main.rs`: widths 8, 6, 2, 8, 6, 2, 1, 1;
the source ends with `assert!(bytes.len() == 34)`. -/
def TestParams.to_bytes (le : Bool) (tp : TestParams) : List Nat :=
  let bytes := []
  let bytes := append_bytes le bytes tp.src_ip 8
  let bytes := append_bytes le bytes tp.src_mac 6
  let bytes := append_bytes le bytes tp.src_port 2
  let bytes := append_bytes le bytes tp.dest_ip 8
  let bytes := append_bytes le bytes tp.dest_mac 6
  let bytes := append_bytes le bytes tp.dest_port 2
  let bytes := append_bytes le bytes tp.seed 1
  append_bytes le bytes tp.gen 1

/-! ## The verification step of `udp_test` (main.rs) -/

/-- The verification tail of `udp_test` in `main.rs`, factored as a function
of the expected sequence, the received byte count and the receive buffer:

    if size != expected.len() { return Err("Did not receive enough data") }
    ...
    if &rdata[..] != &expected[..] {
        return Err("Data received did not match the expected value")
    } else { return Ok(()) }
-/
def udp_verify (expected : List Nat) (size : Nat) (rdata : List Nat) : Except String Unit :=
  if size ≠ expected.length then .error "Did not receive enough data"
  else if rdata ≠ expected then .error "Data received did not match the expected value"
  else .ok ()

/-- `udp_test` from `main.rs`, with the outcomes of the two I/O calls made
explicit: `writeRes` is the result of `port.write(..)`, `recvRes` the result
of `socket.recv_from(..)` (carrying the reported byte count on success) and
`rdata` the contents of the receive buffer afterwards. -/
def udp_test (tp : TestParams) (writeRes : Except String Unit)
    (recvRes : Except Unit Nat) (rdata : List Nat) : Except String Unit :=
  let expected := TestParams.expected tp.seed tp.gen DATA_BYTES
  match writeRes with
  | .error msg => .error msg
  | .ok _ =>
    match recvRes with
    | .error _ => .error "Error reading socket"
    | .ok size => udp_verify expected size rdata

/-- The lowest index (below both lengths) at which two byte sequences
differ, if any: the first point of divergence in the sense of the spec. -/
def firstDiff (xs ys : List Nat) : Option Nat :=
  (List.range (min xs.length ys.length)).find? fun i => xs.getD i 0 != ys.getD i 0

/-! ## The repetition loop and process structure of `main` (main.rs) -/

/-- Whether a repetition result is a `Fail` verdict. -/
def isFail (r : Except String Unit) : Bool :=
  match r with
  | .ok _ => false
  | .error _ => true

/-- The repetition loop of `main`:

    let mut any_failed = false;
    for rep in 0..params.reps {
        match udp_test(..) {
            Ok(_) => { if !params.fail_only { println!("Passed {}") } },
            Err(msg) => { any_failed = true; println!("Failed {}: {}") }
        }
    }

The first component of the state is the trace of per-repetition verdicts
produced (one per loop iteration); the second is `any_failed`. -/
def mainLoop (reps : Nat) (outcome : Nat → Except String Unit) :
    List (Except String Unit) × Bool :=
  (List.range reps).foldl
    (fun acc rep =>
      match outcome rep with
      | .ok _ => (acc.1 ++ [Except.ok ()], acc.2)
      | .error msg => (acc.1 ++ [Except.error msg], true))
    ([], false)

/-- The number of `Fail` verdicts in a trace of repetition results. -/
def countFails (rs : List (Except String Unit)) : Nat :=
  rs.countP isFail

/-- The `Params` struct of `main.rs` (the command-line parameters of that
revision); named `CliParams` here to avoid clashing with `Params` from
`params.rs`. -/
structure CliParams where
  baud : Nat
  fail_only : Bool
  ip : String
  port : String
  reps : Nat

/-- The structure of `main` from `main.rs`, with the outcomes of the
fallible setup steps made explicit: `cfg` is `Params::get()`, `openRes` is
`serial::open(..)`, `_reconfigRes` is `port.reconfigure(..)` (whose result
the code discards with `let _ = ..`), `bindRes` is `UdpSocket::bind(..)`,
`timeoutRes` is `socket.set_read_timeout(..)`, and `outcome rep` is the
result of `udp_test` on repetition `rep`.  Returns the process exit status
(`std::process::exit(1)` on a config error; exit code 1 when `?` propagates
an `Err` out of `main`; 0 when `main` returns `Ok(())`) paired with the
number of repetitions executed. -/
def mainProgram (cfg : Except String CliParams) (openRes : Except String Unit)
    (_reconfigRes : Except String Unit) (bindRes : Except String Unit)
    (timeoutRes : Except String Unit) (outcome : Nat → Except String Unit) :
    Nat × Nat :=
  match cfg with
  | .error _ => (1, 0)
  | .ok p =>
    match openRes with
    | .error _ => (1, 0)
    | .ok _ =>
      match bindRes with
      | .error _ => (1, 0)
      | .ok _ =>
        match timeoutRes with
        | .error _ => (1, 0)
        | .ok _ => (0, (mainLoop p.reps outcome).1.length)

/-! ## The configuration parser `parse_ip_port_mac` (params.rs)

The anchored regex

    ^(\d+)\.(\d+)\.(\d+)\.(\d+):(\d+),([0-9a-fA-F]\x7b2\x7d):([0-9a-fA-F]\x7b2\x7d):...$

is embedded as a deterministic matcher over `List Char` (every repetition in
the pattern is followed by a delimiter outside its character class, so the
greedy match needs no backtracking and the matcher is equivalent to the
regex on ASCII input). -/

/-- Match a non-empty run of decimal digits (`\d+`), returning the capture
and the rest of the input. -/
def matchDigits1 (l : List Char) : Option (List Char × List Char) :=
  match l.span (·.isDigit) with
  | ([], _) => none
  | (ds, rest) => some (ds, rest)

/-- Consume the literal character `c`. -/
def expectChar (c : Char) : List Char → Option (List Char)
  | [] => none
  | a :: rest => if a = c then some rest else none

/-- The character class `[0-9a-fA-F]`. -/
def isHexChar (c : Char) : Bool :=
  c.isDigit || ('a' ≤ c && c ≤ 'f') || ('A' ≤ c && c ≤ 'F')

/-- Match exactly two hex digits (`[0-9a-fA-F]\x7b2\x7d`). -/
def matchHexPair : List Char → Option ((Char × Char) × List Char)
  | a :: b :: rest => if isHexChar a && isHexChar b then some ((a, b), rest) else none
  | _ => none

/-- The eleven capture groups of `IP_PORT_MAC_REGEX`: four IP octets, the
port, and six MAC byte hex pairs. -/
structure IpPortMacCaptures where
  o1 : List Char
  o2 : List Char
  o3 : List Char
  o4 : List Char
  port : List Char
  m1 : Char × Char
  m2 : Char × Char
  m3 : Char × Char
  m4 : Char × Char
  m5 : Char × Char
  m6 : Char × Char

/-- The dotted-quad part `(\d+)\.(\d+)\.(\d+)\.(\d+)` of the regex. -/
def matchOctets (l : List Char) :
    Option ((List Char × List Char × List Char × List Char) × List Char) := do
  let (o1, l1) ← matchDigits1 l
  let l1 ← expectChar '.' l1
  let (o2, l2) ← matchDigits1 l1
  let l2 ← expectChar '.' l2
  let (o3, l3) ← matchDigits1 l2
  let l3 ← expectChar '.' l3
  let (o4, l4) ← matchDigits1 l3
  some ((o1, o2, o3, o4), l4)

/-- The MAC part of the regex: six colon-separated hex pairs, anchored at
the end of the input (`$`). -/
def matchMacPairs (l : List Char) :
    Option ((Char × Char) × (Char × Char) × (Char × Char) × (Char × Char) ×
      (Char × Char) × (Char × Char)) := do
  let (m1, l1) ← matchHexPair l
  let l1 ← expectChar ':' l1
  let (m2, l2) ← matchHexPair l1
  let l2 ← expectChar ':' l2
  let (m3, l3) ← matchHexPair l2
  let l3 ← expectChar ':' l3
  let (m4, l4) ← matchHexPair l3
  let l4 ← expectChar ':' l4
  let (m5, l5) ← matchHexPair l4
  let l5 ← expectChar ':' l5
  let (m6, l6) ← matchHexPair l5
  if l6 = [] then some (m1, m2, m3, m4, m5, m6) else none

/-- The matcher for `IP_PORT_MAC_REGEX` (anchored at both ends). -/
def matchIpPortMac (l : List Char) : Option IpPortMacCaptures := do
  let (os, l1) ← matchOctets l
  let l1 ← expectChar ':' l1
  let (port, l2) ← matchDigits1 l1
  let l2 ← expectChar ',' l2
  let (m1, m2, m3, m4, m5, m6) ← matchMacPairs l2
  some ⟨os.1, os.2.1, os.2.2.1, os.2.2.2, port, m1, m2, m3, m4, m5, m6⟩

/-- The numeric value of a decimal digit character. -/
def digitVal (c : Char) : Nat := c.toNat - '0'.toNat

/-- `str::parse::<uW>()` on a capture: succeeds on a non-empty all-digit
string whose value fits in `w` bits, and fails otherwise. -/
def parseDec (w : Nat) (ds : List Char) : Option Nat :=
  if ds = [] then none
  else if ds.all (·.isDigit) then
    if ds.foldl (fun acc c => 10 * acc + digitVal c) 0 < 2 ^ w then
      some (ds.foldl (fun acc c => 10 * acc + digitVal c) 0)
    else none
  else none

/-- The numeric value of a hex digit character, if it is one. -/
def hexVal (c : Char) : Option Nat :=
  if c.isDigit then some (digitVal c)
  else if 'a' ≤ c ∧ c ≤ 'f' then some (10 + (c.toNat - 'a'.toNat))
  else if 'A' ≤ c ∧ c ≤ 'F' then some (10 + (c.toNat - 'A'.toNat))
  else none

/-- `u64::from_str_radix(s, 16)` on a two-character capture. -/
def hexPairVal (p : Char × Char) : Option Nat := do
  let hi ← hexVal p.1
  let lo ← hexVal p.2
  pure (16 * hi + lo)

/-- The IP-building loop of `parse_ip_port_mac`:

    for i in 0..4 {
        match captures.get(1 + i)...parse::<u32>() {
            Ok(n) => { if n > 255 { return Err(..) } temp_ip |= n << ((3 - i) * 8); },
            _ => return Err(..)
        }
    }
-/
def buildIp (raw : List Char) : List (List Char) → Nat → Nat → Except String Nat
  | [], _, temp_ip => .ok temp_ip
  | ds :: rest, i, temp_ip =>
    match parseDec 32 ds with
    | some n =>
      if n > 255 then .error ("Invalid IP address: " ++ String.mk raw)
      else buildIp raw rest (i + 1) (temp_ip ||| (n <<< ((3 - i) * 8)))
    | none => .error ("Invalid IP address: " ++ String.mk raw)

/-- The MAC-building loop of `parse_ip_port_mac`:

    for i in 0..6 {
        match u64::from_str_radix(captures.get(6 + i)..., 16) {
            Ok(n) => temp_mac |= n << ((5 - i) * 8),
            _ => return Err(..)
        }
    }
-/
def buildMac (raw : List Char) : List (Char × Char) → Nat → Nat → Except String Nat
  | [], _, temp_mac => .ok temp_mac
  | p :: rest, i, temp_mac =>
    match hexPairVal p with
    | some n => buildMac raw rest (i + 1) (temp_mac ||| (n <<< ((5 - i) * 8)))
    | none => .error ("Invalid MAC address: " ++ String.mk raw)

/-- `parse_ip_port_mac` from `params.rs`: regex-match the raw argument and
assemble the `(ip, port, mac)` triple, range-checking the IP octets and
letting the `u16` parse bound the port. -/
def parse_ip_port_mac (raw : List Char) : Except String (Nat × Nat × Nat) :=
  match matchIpPortMac raw with
  | none => .error ("Bad IP, port, and MAC specification: " ++ String.mk raw)
  | some c =>
    match buildIp raw [c.o1, c.o2, c.o3, c.o4] 0 0 with
    | .error e => .error e
    | .ok ip =>
      match parseDec 16 c.port with
      | none => .error "Bad port number"
      | some port =>
        match buildMac raw [c.m1, c.m2, c.m3, c.m4, c.m5, c.m6] 0 0 with
        | .error e => .error e
        | .ok mac => .ok (ip, port, mac)

/-! ## Lemmas about the expected-sequence generator -/

theorem getD_of_getLast? {v : List Nat} {x : Nat} (h : v.getLast? = some x) :
    v.getD (v.length - 1) 0 = x := by
  rw [List.getD_eq_getElem?_getD, ← List.getLast?_eq_getElem?, h]
  rfl

theorem foldl_expectedStep (gen : Nat) :
    ∀ (k : Nat) (v : List Nat) (x : Nat), v.getLast? = some x →
      (List.range' v.length k).foldl (expectedStep gen) v
        = v ++ expectedFrom ((x + gen) % 256) gen k := by
  intro k
  induction k with
  | zero => intro v x _; simp [expectedFrom]
  | succ k ih =>
    intro v x h
    have hstep : expectedStep gen v v.length = v ++ [(x + gen) % 256] := by
      unfold expectedStep
      rw [getD_of_getLast? h]
    calc (List.range' v.length (k + 1)).foldl (expectedStep gen) v
        = (List.range' (v.length + 1) k).foldl (expectedStep gen)
            (v ++ [(x + gen) % 256]) := by
          rw [List.range'_succ, List.foldl_cons, hstep]
      _ = (List.range' (v ++ [(x + gen) % 256]).length k).foldl (expectedStep gen)
            (v ++ [(x + gen) % 256]) := by simp
      _ = (v ++ [(x + gen) % 256])
            ++ expectedFrom (((x + gen) % 256 + gen) % 256) gen k :=
          ih _ _ (List.getLast?_concat v)
      _ = v ++ expectedFrom ((x + gen) % 256) gen (k + 1) := by
          simp [expectedFrom]

theorem TestCase.expected_eq (seed gen bytes : Nat) :
    TestCase.expected seed gen bytes = expectedFrom seed gen bytes := by
  cases bytes with
  | zero => rfl
  | succ k =>
    unfold TestCase.expected
    rw [if_pos (Nat.succ_pos k)]
    have h := foldl_expectedStep gen k [seed] seed rfl
    simp only [List.length_singleton] at h
    simp only [Nat.succ_sub_one, h, expectedFrom, List.singleton_append]

theorem TestParams.expected_eq_pos (seed gen size : Nat) (h : 1 ≤ size) :
    TestParams.expected seed gen size = expectedFrom seed gen size := by
  obtain ⟨k, rfl⟩ : ∃ k, size = k + 1 := ⟨size - 1, by omega⟩
  unfold TestParams.expected
  have h := foldl_expectedStep gen k [seed] seed rfl
  simp only [List.length_singleton] at h
  simp only [Nat.succ_sub_one, h, expectedFrom, List.singleton_append]

theorem expectedFrom_getElem? (gen : Nat) :
    ∀ (n i x : Nat), x < 256 → i < n →
      (expectedFrom x gen n)[i]? = some ((x + i * gen) % 256) := by
  intro n
  induction n with
  | zero => intro i x _ hi; omega
  | succ n ih =>
    intro i x hx hi
    cases i with
    | zero => simp [expectedFrom, Nat.mod_eq_of_lt hx]
    | succ j =>
      have hj : j < n := by omega
      calc (expectedFrom x gen (n + 1))[j + 1]?
          = (expectedFrom ((x + gen) % 256) gen n)[j]? := by simp [expectedFrom]
        _ = some (((x + gen) % 256 + j * gen) % 256) :=
            ih j _ (Nat.mod_lt _ (by omega)) hj
        _ = some ((x + (j + 1) * gen) % 256) := by
            rw [Nat.mod_add_mod]; congr 1; ring_nf

/-! ## Claims C3, C4 and C10: the expected-sequence generator -/

/-- C3: for every seed `s`, step `g` and length `n ≥ 1`, the generated
expected sequence has element 0 equal to `s` and each subsequent element
equal to the previous element plus `g` under unsigned 8-bit wrapping
addition, with no error for any input (both generators are total functions
and agree for `n ≥ 1`); in particular `generate(250, 10, 2) = [250, 4]`. -/
theorem C3_expected_recurrence (s g n : Nat) (hs : s < 256) (hn : 1 ≤ n) :
    (TestCase.expected s g n)[0]? = some s
    ∧ (∀ i, i + 1 < n →
        (TestCase.expected s g n)[i + 1]?
          = some (((TestCase.expected s g n).getD i 0 + g) % 256))
    ∧ TestParams.expected s g n = TestCase.expected s g n
    ∧ TestCase.expected 250 10 2 = [250, 4] := by
  refine ⟨?_, ?_, ?_, by decide⟩
  · rw [TestCase.expected_eq]
    have h := expectedFrom_getElem? g n 0 s hs (by omega)
    simpa [Nat.mod_eq_of_lt hs] using h
  · intro i hi
    rw [TestCase.expected_eq]
    have h1 := expectedFrom_getElem? g n (i + 1) s hs hi
    have h0 := expectedFrom_getElem? g n i s hs (by omega)
    rw [h1, List.getD_eq_getElem?_getD, h0]
    show some ((s + (i + 1) * g) % 256) = some (((s + i * g) % 256 + g) % 256)
    rw [Nat.mod_add_mod]
    congr 1
    ring_nf
  · rw [TestCase.expected_eq, TestParams.expected_eq_pos s g n hn]

/-- C3 witness: the theorem instantiated at seed 250, step 10, length 2. -/
theorem C3_expected_recurrence_witness :
    (TestCase.expected 250 10 2)[0]? = some 250
    ∧ (∀ i, i + 1 < 2 →
        (TestCase.expected 250 10 2)[i + 1]?
          = some (((TestCase.expected 250 10 2).getD i 0 + 10) % 256))
    ∧ TestParams.expected 250 10 2 = TestCase.expected 250 10 2
    ∧ TestCase.expected 250 10 2 = [250, 4] :=
  C3_expected_recurrence 250 10 2 (by decide) (by decide)

/-- C4 counterexample: `TestParams::expected` in `main.rs` pushes the seed
before its loop, with no guard on `size`, so at length 0 it returns the
one-element list `[seed]` rather than the empty sequence. -/
theorem C4_counterexample :
    TestParams.expected 5 7 0 = [5] ∧ TestParams.expected 5 7 0 ≠ [] := by
  decide

/-- C4 (amended): for every seed and step, `TestCase::expected`
(test_case.rs) at length 0 returns the empty sequence, while
`TestParams::expected` (main.rs) at length 0 returns the one-element
sequence `[seed]`; neither errors. -/
theorem C4_zero_length (s g : Nat) :
    TestCase.expected s g 0 = [] ∧ TestParams.expected s g 0 = [s] :=
  ⟨rfl, rfl⟩

/-- C10: for every seed `s`, step `g`, payload byte count `n` and index
`i < n`, the `i`-th element of the generated expected sequence equals
`(s + i * g) % 256` — the closed form of the 8-bit wrapping recurrence. -/
theorem C10_closed_form (s g n i : Nat) (hs : s < 256) (hi : i < n) :
    (TestCase.expected s g n)[i]? = some ((s + i * g) % 256) := by
  rw [TestCase.expected_eq]
  exact expectedFrom_getElem? g n i s hs hi

/-- C10 witness: the closed form evaluated at seed 250, step 10, length 2,
index 1 (the wraparound example). -/
theorem C10_closed_form_witness :
    (TestCase.expected 250 10 2)[1]? = some ((250 + 1 * 10) % 256) :=
  C10_closed_form 250 10 2 1 (by decide) (by decide)

/-! ## Claims C1 and C2: the packet encoders -/

theorem append_bytes_length (le : Bool) (vec : List Nat) (data bytes : Nat) :
    (append_bytes le vec data bytes).length = vec.length + bytes := by
  simp [append_bytes]

/-- C1 counterexample: `TestParams::to_bytes` in `main.rs` serializes the
two IP addresses as 8 bytes each, so its output buffer has 34 bytes, not
26 (its own assertion checks `== 34`). -/
theorem C1_counterexample :
    (TestParams.to_bytes false ⟨0, 0, 0, 0, 0, 0, 0, 0⟩).length ≠ 26
    ∧ (TestParams.to_bytes false ⟨0, 0, 0, 0, 0, 0, 0, 0⟩).length = 34 := by
  decide

/-- C1 (amended): for every host byte order, every `TestCase` and every
`TestParams`, `TestCase::to_bytes` returns a buffer of exactly 26 bytes
(so its `assert!(bytes.len() == 26)` never fails), while
`TestParams::to_bytes` in `main.rs` returns a buffer of exactly 34 bytes
(so its `assert!(bytes.len() == 34)` never fails). -/
theorem C1_encoder_lengths (le : Bool) (tc : TestCase) (tp : TestParams) :
    (TestCase.to_bytes le tc).length = 26
    ∧ (TestParams.to_bytes le tp).length = 34 := by
  constructor <;>
    simp [TestCase.to_bytes, TestParams.to_bytes, append_bytes_length]

/-- C2, evaluated at the failing input: on a little-endian host
(`le = true`), `data.to_be()` swaps the eight bytes of the `u64` before the
loop extracts the low `bytes` bytes by shifting, so for source IP
`0xC0A80101` (192.168.1.1) the encoder emits `0x00` as byte 0 — the whole
packet is zeros — instead of `0xC0` (bits 31..24 of the IP), which only a
big-endian host produces.  The code contradicts its own comment ("This
makes sure that the data is interpreted in big endian byte order"). -/
theorem C2_little_endian_code_bug :
    TestCase.to_bytes true
        ⟨⟨256, 0, 0, 0, false, 0, "", 0, false, 0xC0A80101, 0, 0⟩, 0, 0⟩
      = List.replicate 26 0
    ∧ TestCase.to_bytes false
        ⟨⟨256, 0, 0, 0, false, 0, "", 0, false, 0xC0A80101, 0, 0⟩, 0, 0⟩
      = 192 :: 168 :: 1 :: 1 :: List.replicate 22 0
    ∧ (0xC0A80101 >>> 24) &&& 0xFF = 192 := by
  decide

/-! ## Lemmas about the repetition loop -/

theorem mainLoop_foldl (f : Nat → Except String Unit) :
    ∀ (l : List Nat) (t : List (Except String Unit)) (b : Bool),
      l.foldl
        (fun acc rep =>
          match f rep with
          | .ok _ => (acc.1 ++ [Except.ok ()], acc.2)
          | .error msg => (acc.1 ++ [Except.error msg], true)) (t, b)
      = (t ++ l.map f, b || l.any fun i => isFail (f i)) := by
  intro l
  induction l with
  | nil => intro t b; simp
  | cons hd tl ih =>
    intro t b
    simp only [List.foldl_cons]
    cases hf : f hd with
    | ok u =>
      cases u
      simp only [hf, ih, List.map_cons, List.any_cons, isFail]
      simp [hf]
    | error msg =>
      simp only [hf, ih, List.map_cons, List.any_cons, isFail]
      simp [hf]

theorem mainLoop_eq (reps : Nat) (f : Nat → Except String Unit) :
    mainLoop reps f
      = ((List.range reps).map f, (List.range reps).any fun i => isFail (f i)) := by
  unfold mainLoop
  rw [mainLoop_foldl]
  simp

/-! ## Claims C5, C6, C7 and C8: verification, summary, loop and exit -/

/-- C5 counterexample: the content-mismatch diagnostic of `udp_test` is the
fixed string "Data received did not match the expected value" — the same
for a divergence at index 1 (expected 2, got 9) as for one at index 0, so
it reports neither the lowest diverging index nor the byte values. -/
theorem C5_counterexample :
    udp_verify [1, 2, 3] 3 [1, 9, 3]
      = Except.error "Data received did not match the expected value"
    ∧ udp_verify [1, 2, 3] 3 [1, 9, 3] = udp_verify [1, 2, 3] 3 [9, 2, 3]
    ∧ firstDiff [1, 2, 3] [1, 9, 3] = some 1
    ∧ firstDiff [1, 2, 3] [9, 2, 3] = some 0 :=
  ⟨rfl, rfl, rfl, rfl⟩

/-- C5 (amended): whenever the reported size equals the expected length and
the received buffer differs from the expected sequence anywhere, the
verification step returns Fail with the fixed diagnostic "Data received did
not match the expected value", which identifies neither the index of the
divergence nor the expected/actual byte values. -/
theorem C5_mismatch_fixed_diagnostic (expected rdata : List Nat) (size : Nat)
    (hsize : size = expected.length) (hne : rdata ≠ expected) :
    udp_verify expected size rdata
      = Except.error "Data received did not match the expected value" := by
  subst hsize
  simp [udp_verify, hne]

/-- C5 witness: the amended theorem at the spec's own example
`verify([1,2,3], [1,9,3], 3)`. -/
theorem C5_mismatch_fixed_diagnostic_witness :
    udp_verify [1, 2, 3] 3 [1, 9, 3]
      = Except.error "Data received did not match the expected value" :=
  C5_mismatch_fixed_diagnostic [1, 2, 3] [1, 9, 3] 3 (by decide) (by decide)

/-- C6 counterexample: the loop's only aggregate state is the boolean
`any_failed`; a run of 5 repetitions failing at 2 and 4 (two failures) and
one failing only at 2 (one failure) leave identical post-loop state, so the
code cannot report `failed = 2` versus `failed = 1` — no `RunSummary`
with a failure count exists. -/
theorem C6_counterexample :
    (mainLoop 5 fun r =>
        if r == 2 || r == 4 then
          Except.error "Data received did not match the expected value"
        else Except.ok ()).2
      = (mainLoop 5 fun r =>
          if r == 2 then
            Except.error "Data received did not match the expected value"
          else Except.ok ()).2
    ∧ countFails (mainLoop 5 fun r =>
        if r == 2 || r == 4 then
          Except.error "Data received did not match the expected value"
        else Except.ok ()).1 = 2
    ∧ countFails (mainLoop 5 fun r =>
        if r == 2 then
          Except.error "Data received did not match the expected value"
        else Except.ok ()).1 = 1 := by
  decide

/-- C6 (amended): the run's aggregate is the single flag `any_failed`: after
`N` repetitions the loop has produced exactly `N` verdicts, and
`any_failed` is true exactly when at least one repetition produced a Fail
verdict (so with 5 repetitions failing at 2 and 4 it is true, but the
individual counts are not recorded). -/
theorem C6_any_failed_flag (reps : Nat) (f : Nat → Except String Unit) :
    ((mainLoop reps f).2 = true ↔ 0 < countFails (mainLoop reps f).1)
    ∧ (mainLoop reps f).1.length = reps := by
  rw [mainLoop_eq]
  constructor
  · simp [countFails, List.countP_map, List.countP_pos_iff, Function.comp]
  · simp

/-- C6 witness: the amended theorem at the 5-repetition example failing at
repetitions 2 and 4. -/
theorem C6_any_failed_flag_witness :
    ((mainLoop 5 fun r =>
        if r == 2 || r == 4 then
          Except.error "Data received did not match the expected value"
        else Except.ok ()).2 = true
      ↔ 0 < countFails (mainLoop 5 fun r =>
          if r == 2 || r == 4 then
            Except.error "Data received did not match the expected value"
          else Except.ok ()).1)
    ∧ (mainLoop 5 fun r =>
        if r == 2 || r == 4 then
          Except.error "Data received did not match the expected value"
        else Except.ok ()).1.length = 5 :=
  C6_any_failed_flag 5 _

/-- C7: for every sequence of per-repetition outcomes of `udp_test` — send
error, receive error or timeout, length mismatch, content mismatch or pass,
as induced by arbitrary per-repetition I/O results — the repetition loop of
`main` produces exactly `reps` verdicts: no per-repetition failure aborts
the loop. -/
theorem C7_loop_executes_all_reps (reps : Nat) (tp : TestParams)
    (w : Nat → Except String Unit) (r : Nat → Except Unit Nat)
    (d : Nat → List Nat) :
    (mainLoop reps fun i => udp_test tp (w i) (r i) (d i)).1.length = reps := by
  rw [mainLoop_eq]
  simp

/-- C8: if configuration and channel setup succeed, `main` runs all
repetitions and exits with status 0 no matter how many repetitions failed;
a non-zero exit status happens only when configuration parsing or one of
the channel-setup steps failed, and then no repetition has run. -/
theorem C8_exit_status :
    (∀ (p : CliParams) (rc : Except String Unit) (f : Nat → Except String Unit),
      mainProgram (Except.ok p) (Except.ok ()) rc (Except.ok ()) (Except.ok ()) f
        = (0, p.reps))
    ∧ (∀ (cfg : Except String CliParams) (o rc b t : Except String Unit)
        (f : Nat → Except String Unit),
        (mainProgram cfg o rc b t f).1 ≠ 0 →
          ((∃ e, cfg = Except.error e) ∨ (∃ e, o = Except.error e)
            ∨ (∃ e, b = Except.error e) ∨ (∃ e, t = Except.error e))
          ∧ (mainProgram cfg o rc b t f).2 = 0) := by
  constructor
  · intro p rc f
    show (0, (mainLoop p.reps f).1.length) = (0, p.reps)
    rw [mainLoop_eq]
    simp
  · intro cfg o rc b t f h
    cases cfg with
    | error e => exact ⟨Or.inl ⟨e, rfl⟩, rfl⟩
    | ok p =>
      cases o with
      | error e => exact ⟨Or.inr (Or.inl ⟨e, rfl⟩), rfl⟩
      | ok _ =>
        cases b with
        | error e => exact ⟨Or.inr (Or.inr (Or.inl ⟨e, rfl⟩)), rfl⟩
        | ok _ =>
          cases t with
          | error e => exact ⟨Or.inr (Or.inr (Or.inr ⟨e, rfl⟩)), rfl⟩
          | ok _ => exact absurd rfl h

/-- C8 witness: the exit-status theorem applied to a run whose
configuration parsing failed. -/
theorem C8_exit_status_witness :
    ((∃ e, (Except.error "bad" : Except String CliParams) = Except.error e)
      ∨ (∃ e, (Except.ok () : Except String Unit) = Except.error e)
      ∨ (∃ e, (Except.ok () : Except String Unit) = Except.error e)
      ∨ (∃ e, (Except.ok () : Except String Unit) = Except.error e))
    ∧ (mainProgram (Except.error "bad") (Except.ok ()) (Except.ok ())
        (Except.ok ()) (Except.ok ()) fun _ => Except.ok ()).2 = 0 :=
  C8_exit_status.2 (Except.error "bad") (Except.ok ()) (Except.ok ())
    (Except.ok ()) (Except.ok ()) (fun _ => Except.ok ()) (by decide)

/-! ## Claim C9: range invariants of `parse_ip_port_mac` -/

theorem char_toNat_le_of_val_le {c : Char} {m : UInt32} (h : c.val ≤ m) :
    c.toNat ≤ m.toNat := by
  simpa [Char.toNat, UInt32.toNat, UInt32.le_def, BitVec.le_def] using h

theorem digitVal_le_of_isDigit {c : Char} (h : c.isDigit = true) :
    digitVal c ≤ 9 := by
  simp only [Char.isDigit, Bool.and_eq_true, decide_eq_true_eq] at h
  have h3 : c.toNat ≤ (57 : UInt32).toNat := char_toNat_le_of_val_le h.2
  have h4 : (57 : UInt32).toNat = 57 := rfl
  have h5 : ('0' : Char).toNat = 48 := rfl
  unfold digitVal
  omega

theorem hexVal_le {c : Char} {v : Nat} (h : hexVal c = some v) : v ≤ 15 := by
  unfold hexVal at h
  split_ifs at h with h1 h2 h3
  · have := digitVal_le_of_isDigit h1
    injection h with h
    omega
  · have h4 : c.toNat ≤ ('f' : Char).val.toNat :=
      char_toNat_le_of_val_le (Char.le_def.mp h2.2)
    have h5 : ('f' : Char).val.toNat = 102 := rfl
    have h6 : ('a' : Char).toNat = 97 := rfl
    injection h with h
    omega
  · have h4 : c.toNat ≤ ('F' : Char).val.toNat :=
      char_toNat_le_of_val_le (Char.le_def.mp h3.2)
    have h5 : ('F' : Char).val.toNat = 70 := rfl
    have h6 : ('A' : Char).toNat = 65 := rfl
    injection h with h
    omega

theorem hexPairVal_le {p : Char × Char} {v : Nat} (h : hexPairVal p = some v) :
    v ≤ 255 := by
  unfold hexPairVal at h
  cases h1 : hexVal p.1 with
  | none => rw [h1] at h; simp at h
  | some hi =>
    cases h2 : hexVal p.2 with
    | none => rw [h1, h2] at h; simp at h
    | some lo =>
      rw [h1, h2] at h
      simp at h
      have hhi := hexVal_le h1
      have hlo := hexVal_le h2
      omega

theorem parseDec_lt {w : Nat} {ds : List Char} {v : Nat}
    (h : parseDec w ds = some v) : v < 2 ^ w := by
  unfold parseDec at h
  split_ifs at h with h1 h2 h3
  injection h with h
  omega

theorem buildIp_lt (raw : List Char) :
    ∀ (l : List (List Char)) (i acc : Nat), acc < 2 ^ 32 →
      ∀ v, buildIp raw l i acc = .ok v → v < 2 ^ 32 := by
  intro l
  induction l with
  | nil =>
    intro i acc hacc v h
    unfold buildIp at h
    cases h
    exact hacc
  | cons ds rest ih =>
    intro i acc hacc v h
    unfold buildIp at h
    split at h
    · rename_i n hp
      split_ifs at h with hgt
      refine ih (i + 1) (acc ||| n <<< ((3 - i) * 8)) ?_ v h
      have hn : n ≤ 255 := by omega
      have hsh : (3 - i) * 8 ≤ 24 := by omega
      have hshift : n <<< ((3 - i) * 8) < 2 ^ 32 := by
        rw [Nat.shiftLeft_eq]
        calc n * 2 ^ ((3 - i) * 8)
            ≤ 255 * 2 ^ 24 :=
              Nat.mul_le_mul hn (Nat.pow_le_pow_right (by omega) hsh)
          _ < 2 ^ 32 := by norm_num
      exact Nat.or_lt_two_pow hacc hshift
    · exact Except.noConfusion h

theorem buildMac_lt (raw : List Char) :
    ∀ (l : List (Char × Char)) (i acc : Nat), acc < 2 ^ 48 →
      ∀ v, buildMac raw l i acc = .ok v → v < 2 ^ 48 := by
  intro l
  induction l with
  | nil =>
    intro i acc hacc v h
    unfold buildMac at h
    cases h
    exact hacc
  | cons p rest ih =>
    intro i acc hacc v h
    unfold buildMac at h
    split at h
    case _ n hp =>
      refine ih (i + 1) (acc ||| n <<< ((5 - i) * 8)) ?_ v h
      have hn : n ≤ 255 := hexPairVal_le hp
      have hsh : (5 - i) * 8 ≤ 40 := by omega
      have hshift : n <<< ((5 - i) * 8) < 2 ^ 48 := by
        rw [Nat.shiftLeft_eq]
        calc n * 2 ^ ((5 - i) * 8)
            ≤ 255 * 2 ^ 40 :=
              Nat.mul_le_mul hn (Nat.pow_le_pow_right (by omega) hsh)
          _ < 2 ^ 48 := by norm_num
      exact Nat.or_lt_two_pow hacc hshift
    case _ hp => exact Except.noConfusion h

/-- C9: for every input string, `parse_ip_port_mac` either returns an
error, or returns a triple `(ip, port, mac)` in which every 8-bit octet of
`ip` is at most 255 (indeed `ip` fits in 32 bits), `port` fits in 16 bits,
and `mac` is strictly less than `2^48`. -/
theorem C9_parse_invariant (raw : List Char) (ip port mac : Nat)
    (h : parse_ip_port_mac raw = .ok (ip, port, mac)) :
    ip < 2 ^ 32 ∧ (∀ k, (ip >>> (8 * k)) &&& 0xFF ≤ 255)
    ∧ port < 2 ^ 16 ∧ mac < 2 ^ 48 := by
  unfold parse_ip_port_mac at h
  split at h
  · exact Except.noConfusion h
  · rename_i c hm
    split at h
    · exact Except.noConfusion h
    · rename_i ipv hip
      split at h
      · exact Except.noConfusion h
      · rename_i pv hpd
        split at h
        · exact Except.noConfusion h
        · rename_i mv hmac
          injection h with h
          rw [Prod.mk.injEq, Prod.mk.injEq] at h
          obtain ⟨rfl, rfl, rfl⟩ := h
          exact ⟨buildIp_lt raw _ 0 0 (by norm_num) ipv hip,
            fun k => Nat.and_le_right,
            parseDec_lt hpd,
            buildMac_lt raw _ 0 0 (by norm_num) mv hmac⟩

/-- C9 witness: the invariant theorem applied to the parse of
`1.2.3.4:5,aa:bb:cc:dd:ee:ff`, which succeeds with
`ip = 0x01020304`, `port = 5`, `mac = 0xAABBCCDDEEFF`. -/
theorem C9_parse_invariant_witness :
    16909060 < 2 ^ 32 ∧ 5 < 2 ^ 16 ∧ 187723572702975 < 2 ^ 48 :=
  let h := C9_parse_invariant
    ['1', '.', '2', '.', '3', '.', '4', ':', '5', ',',
     'a', 'a', ':', 'b', 'b', ':', 'c', 'c', ':', 'd', 'd', ':', 'e', 'e', ':', 'f', 'f']
    16909060 5 187723572702975 rfl
  ⟨h.1, h.2.2.1, h.2.2.2⟩

end EtherTester
